import Mathlib

/-!
Verification development for the reddit extractor module
(src/gallery_dl/extractor/reddit.py).

Each Python construct used by the properties under study is translated
into an executable Lean definition; external collaborators (HTTP
transport, regex URL classification, HTML attribute scraping) are
passed in as oracle functions, mirroring the narrow interfaces the
module consumes.
-/

/- ### Comment trees and flattening (RedditAPI._flatten, RedditAPI.morechildren) -/

/-- A queue entry of the comment tree, mirroring the JSON "things" the
reddit API returns: kind "t1" carries a comment body together with the
children of its "replies" listing (a falsy "replies" field is the empty
list); kind "more" carries the list of not-yet-fetched child ids. -/
inductive Thing where
  | comment (body : String) (replies : List Thing)
  | more (children : List String)

/-- Result of running the flattening loop: the comments yielded in
order, the "extra" overflow list collected from "more" stubs, and the
final state of the (destructively popped) queue list. -/
structure FlatRes where
  out : List String
  extra : List String
  queue : List Thing

/-- Size of a single queue entry: one plus the total size of a
comment's reply subtrees. Used as the termination measure of the
flattening loop. -/
def Thing.size : Thing → Nat
  | Thing.more _ => 1
  | Thing.comment _ rs => 1 + (rs.attach.map (fun t => Thing.size t.1)).sum
decreasing_by
  have h := List.sizeOf_lt_of_mem t.2
  simp
  omega

theorem Thing.size_more (cs : List String) : Thing.size (Thing.more cs) = 1 := by
  simp [Thing.size]

theorem Thing.size_comment (b : String) (rs : List Thing) :
    Thing.size (Thing.comment b rs) = 1 + (rs.map Thing.size).sum := by
  rw [Thing.size]
  congr 1
  rw [List.map_attach]
  simp

/-- Total size of a list of queue entries: popping a comment and
appending its replies strictly shrinks this weight. -/
def thingsWeight (ts : List Thing) : Nat := (ts.map Thing.size).sum

theorem thingsWeight_append (a b : List Thing) :
    thingsWeight (a ++ b) = thingsWeight a + thingsWeight b := by
  simp [thingsWeight]

theorem thingsWeight_cons (t : Thing) (ts : List Thing) :
    thingsWeight (t :: ts) = Thing.size t + thingsWeight ts := by
  simp [thingsWeight]

theorem Thing.size_pos (t : Thing) : 0 < Thing.size t := by
  cases t <;> simp [Thing.size_more, Thing.size_comment]

/-- Model of RedditAPI._flatten's while-loop (reddit.py lines 326-337):
`queue = comments.data.children; while queue: comment = queue.pop(0);`
a "more" entry extends `extra` only when a link id was supplied and is
otherwise dropped; a comment is yielded and its replies are appended to
the tail of the same queue. -/
def flattenQ (lid : Option String) : List Thing → FlatRes
  | [] => ⟨[], [], []⟩
  | Thing.more cs :: rest =>
      let r := flattenQ lid rest
      if lid.isSome then ⟨r.out, cs ++ r.extra, r.queue⟩ else r
  | Thing.comment b rs :: rest =>
      let r := flattenQ lid (rest ++ rs)
      ⟨b :: r.out, r.extra, r.queue⟩
termination_by q => thingsWeight q
decreasing_by
  · rw [thingsWeight_cons, Thing.size_more]
    omega
  · rw [thingsWeight_append, thingsWeight_cons, Thing.size_comment]
    simp only [thingsWeight]
    omega

theorem flattenQ_nil (lid : Option String) : flattenQ lid [] = ⟨[], [], []⟩ := by
  simp [flattenQ]

theorem flattenQ_more (lid : Option String) (cs : List String) (rest : List Thing) :
    flattenQ lid (Thing.more cs :: rest) =
      (if lid.isSome then
        ⟨(flattenQ lid rest).out, cs ++ (flattenQ lid rest).extra, (flattenQ lid rest).queue⟩
      else flattenQ lid rest) := by
  rw [flattenQ]

theorem flattenQ_comment (lid : Option String) (b : String) (rs rest : List Thing) :
    flattenQ lid (Thing.comment b rs :: rest) =
      ⟨b :: (flattenQ lid (rest ++ rs)).out,
        (flattenQ lid (rest ++ rs)).extra, (flattenQ lid (rest ++ rs)).queue⟩ := by
  rw [flattenQ]

/-- Projection of a response "thing" to a yielded comment body,
mirroring the else-branch of the loop in RedditAPI.morechildren. -/
def thingYield : Thing → Option String
  | Thing.comment b _ => some b
  | Thing.more _ => none

/-- Projection of a response "thing" to the child ids it appends,
mirroring the kind == "more" branch of RedditAPI.morechildren. -/
def thingMore : Thing → Option (List String)
  | Thing.comment _ _ => none
  | Thing.more cs => some cs

/-- Model of RedditAPI.morechildren (reddit.py lines 227-243). `api`
is the oracle for the POST to /api/morechildren, mapping the id batch
sent in the request to the "things" of the response. The loop state is
the growing `children` list and the running `index`; `done` is decided
before the call is made, so the call is issued even for a final empty
batch, and child ids appended by the final call's response are dropped.
Returns the yielded comment bodies and the log of id batches sent, one
batch per API call. Fuel bounds the number of iterations; the caller
supplies enough fuel for the runs under study. -/
def morechildren (api : List String → List Thing) :
    Nat → List String → Nat → List String × List (List String)
  | 0, _, _ => ([], [])
  | fuel + 1, children, index =>
      let chunk := (children.drop index).take 100
      let things := api chunk
      let ys := things.filterMap thingYield
      let ext := (things.filterMap thingMore).flatten
      if children.length - index < 100 then (ys, [chunk])
      else
        let r := morechildren api fuel (children ++ ext) (index + 100)
        (ys ++ r.1, chunk :: r.2)

/-- Model of RedditAPI._flatten as a whole (reddit.py lines 325-339):
run the queue loop, then, when a link id was supplied and the overflow
list is non-empty, delegate it to morechildren. Returns the full
comment stream and the log of morechildren id batches (empty when no
batched call was issued). -/
def redditFlatten (api : List String → List Thing) (fuel : Nat)
    (lid : Option String) (q : List Thing) : List String × List (List String) :=
  let r := flattenQ lid q
  match lid with
  | none => (r.out, [])
  | some _ =>
      if r.extra.isEmpty then (r.out, [])
      else
        let m := morechildren api fuel r.extra 0
        (r.out ++ m.1, m.2)

/-- Invariants of the flattening loop: the queue list is fully drained
(its final state is empty), the stream of yielded comments does not
depend on the link id, and with no link id the overflow list stays
empty. -/
theorem flattenQ_props (lid : Option String) (q : List Thing) :
    (flattenQ lid q).queue = [] ∧
    (flattenQ lid q).out = (flattenQ none q).out ∧
    (flattenQ none q).extra = [] := by
  match q with
  | [] => simp [flattenQ_nil]
  | Thing.more cs :: rest =>
      have ih := flattenQ_props lid rest
      have ih0 := flattenQ_props none rest
      rw [flattenQ_more, flattenQ_more]
      cases lid with
      | none => simpa using ih0
      | some l =>
          simp only [Option.isSome_some, Option.isSome_none, if_true, if_false,
            Bool.false_eq_true]
          exact ⟨ih.1, ih.2.1, ih.2.2⟩
  | Thing.comment b rs :: rest =>
      have ih := flattenQ_props lid (rest ++ rs)
      rw [flattenQ_comment, flattenQ_comment]
      exact ⟨ih.1, by simp [ih.2.1], ih.2.2⟩
termination_by thingsWeight q
decreasing_by
  all_goals first
    | (rw [thingsWeight_cons, Thing.size_more]; omega)
    | (rw [thingsWeight_append, thingsWeight_cons, Thing.size_comment]
       simp only [thingsWeight]
       omega)

/-- Every id batch sent by morechildren carries at most 100 ids, since
each batch is a take-100 slice of the pending children list. -/
theorem morechildren_chunk_le (api : List String → List Thing) :
    ∀ (fuel : Nat) (children : List String) (i : Nat),
      ∀ c ∈ (morechildren api fuel children i).2, c.length ≤ 100 := by
  intro fuel
  induction fuel with
  | zero => intro children i c hc; simp [morechildren] at hc
  | succ fuel ih =>
      intro children i c hc
      rw [morechildren] at hc
      by_cases h : children.length - i < 100
      · simp only [h, if_true] at hc
        rcases List.mem_singleton.mp hc with rfl
        simp [List.length_take]
      · simp only [h, if_false] at hc
        rcases List.mem_cons.mp hc with rfl | hmem
        · simp [List.length_take]
        · exact ih _ _ _ hmem

/-- Number of API calls morechildren makes from index `i` over a fixed
pending list (the oracle returning no further "more" stubs): one call
per started block of 100 remaining ids, plus one final call — which
carries an empty batch when the remaining count is an exact multiple
of 100 (the loop decides `done` before sending, and sends once more
after the index has passed the end). -/
theorem morechildren_calls (api : List String → List Thing)
    (hno : ∀ c, (api c).filterMap thingMore = []) :
    ∀ (fuel : Nat) (children : List String) (i : Nat),
      (children.length - i) / 100 < fuel →
      (morechildren api fuel children i).2.length = (children.length - i) / 100 + 1 := by
  intro fuel
  induction fuel with
  | zero => intro children i h; omega
  | succ fuel ih =>
      intro children i h
      rw [morechildren]
      simp only [hno, List.flatten_nil, List.append_nil]
      by_cases hd : children.length - i < 100
      · simp [hd, Nat.div_eq_of_lt hd]
      · simp only [hd, if_false]
        have h100 : 100 ≤ children.length - i := by omega
        have hdiv : (children.length - i) / 100 = (children.length - i - 100) / 100 + 1 :=
          Nat.div_eq_sub_div (by omega) h100
        have hsub : children.length - (i + 100) = children.length - i - 100 := by omega
        have hih := ih children (i + 100) (by omega)
        simp only [List.length_cons, hih, hsub]
        omega

/-- Pending-id list of one hundred entries used to exercise the
boundary case of the morechildren batching loop. -/
def c1ids : List String := List.replicate 100 "c1"

/-- Comment tree with top-level replies C1 and C2 where C1 has the
nested reply C1a, as in the spec's flattening example. -/
def c2tree : List Thing :=
  [Thing.comment "C1" [Thing.comment "C1a" []], Thing.comment "C2" []]

/-- Claim C1, counterexample: on an overflow list of exactly 100
pending ids (with an oracle returning no further stubs) the code
issues 2 API calls, not ceil(100/100) = 1 — the loop decides `done`
before sending, so after a full batch of 100 it sends one more call
with an empty id list. -/
theorem claim_C1_counterexample :
    (morechildren (fun _ => []) 2 c1ids 0).2.length = 2 ∧
    (c1ids.length + 99) / 100 = 1 := by
  constructor
  · rfl
  · rfl

/-- Claim C1 (amended): a MoreStub encountered with no owning-post id
contributes zero additional comments (no batched call is issued and
the output is exactly the queue-order comment stream, which is
independent of the link id); with an owning-post id and an overflow
list of n pending ids, the batched fetch issues exactly n / 100 + 1
calls (one per started block of 100 plus a trailing call, which is
empty exactly when 100 divides n — equal to ceil(n/100) whenever 100
does not divide n), each call carrying at most 100 identifiers. -/
theorem claim_C1_morechildren_batching
    (api : List String → List Thing) (fuel : Nat) (q : List Thing) (l : String)
    (ids : List String)
    (hno : ∀ c, (api c).filterMap thingMore = [])
    (hfuel : ids.length / 100 < fuel) :
    (redditFlatten api fuel none q).2 = [] ∧
    (redditFlatten api fuel none q).1 = (flattenQ none q).out ∧
    (flattenQ (some l) q).out = (flattenQ none q).out ∧
    (morechildren api fuel ids 0).2.length = ids.length / 100 + 1 ∧
    (∀ c ∈ (morechildren api fuel ids 0).2, c.length ≤ 100) := by
  refine ⟨rfl, rfl, (flattenQ_props (some l) q).2.1, ?_,
    morechildren_chunk_le api fuel ids 0⟩
  have h := morechildren_calls api hno fuel ids 0 (by simpa using hfuel)
  simpa using h

/-- Witness for claim C1's amended theorem at a singleton overflow
list: one call, carrying one id. -/
theorem claim_C1_witness :
    (redditFlatten (fun _ => []) 1 none []).2 = [] ∧
    (redditFlatten (fun _ => []) 1 none []).1 = (flattenQ none []).out ∧
    (flattenQ (some "t3_x") []).out = (flattenQ none []).out ∧
    (morechildren (fun _ => []) 1 ["a"] 0).2.length = ["a"].length / 100 + 1 ∧
    (∀ c ∈ (morechildren (fun _ => []) 1 ["a"] 0).2, c.length ≤ 100) :=
  claim_C1_morechildren_batching (fun _ => []) 1 [] "t3_x" ["a"]
    (fun _ => rfl) (by decide)

/-- Claim C2: flattening yields comments in queue-driven encounter
order: dequeuing a comment yields it and appends its replies to the
tail of the same queue (so all queued siblings come before those
replies); on the tree with top-level replies C1, C2 where C1 has
nested reply C1a, the output order is C1, C2, C1a. -/
theorem claim_C2_flatten_order :
    (∀ (lid : Option String) (b : String) (rs rest : List Thing),
      flattenQ lid (Thing.comment b rs :: rest) =
        ⟨b :: (flattenQ lid (rest ++ rs)).out,
          (flattenQ lid (rest ++ rs)).extra, (flattenQ lid (rest ++ rs)).queue⟩) ∧
    (flattenQ none c2tree).out = ["C1", "C2", "C1a"] := by
  constructor
  · exact flattenQ_comment
  · simp [c2tree, flattenQ_comment, flattenQ_nil]

/-- Claim C10: the flattening loop destructively drains the root's
children list (the queue it pops from and appends replies to), so
after the output is consumed the list is empty, and flattening the
emptied structure a second time yields nothing — no comments, no
overflow, no batched calls. -/
theorem claim_C10_flatten_drains_queue
    (api : List String → List Thing) (fuel : Nat) (lid : Option String)
    (q : List Thing) :
    (flattenQ lid q).queue = [] ∧
    (flattenQ lid ((flattenQ lid q).queue)).out = [] ∧
    redditFlatten api fuel lid ((flattenQ lid q).queue) = ([], []) := by
  have h := (flattenQ_props lid q).1
  refine ⟨h, ?_, ?_⟩
  · rw [h, flattenQ_nil]
  · rw [h]
    cases lid with
    | none => simp [redditFlatten, flattenQ_nil]
    | some l => simp [redditFlatten, flattenQ_nil]

/- ### Crawl loop (RedditExtractor.items, RedditExtractor._urls) -/

/-- A submission record as the crawl consumes it: id, is_self flag,
url field, and the href values the external text.extract_iter scraper
finds in its selftext_html body (a falsy body scrapes to the empty
list). -/
structure CSub where
  id : String
  is_self : Bool
  url : String
  selftext_html : List String
deriving DecidableEq

/-- A comment record as the crawl consumes it: the href values
scraped from its body_html. -/
structure CCom where
  body_html : List String
deriving DecidableEq

/-- The metadata record paired with each discovered URL: the
submission or comment whose body contained it. -/
inductive LinkMeta where
  | sub (s : CSub)
  | com (c : CCom)
deriving DecidableEq

/-- Model of Python set.add on the visited set: insert the id unless
already present. -/
def visitInsert (v : List String) (i : String) : List String :=
  if i ∈ v then v else i :: v

/-- The URLs one (submission, comments) pair yields, in the order of
RedditExtractor._urls (reddit.py lines 61-78): the submission's url
field when it is not a self post, then the hrefs of its selftext,
then the hrefs of each comment body. -/
def pairUrls (sub : Option CSub) (coms : Option (List CCom)) : List (String × LinkMeta) :=
  (match sub with
   | some s =>
       (if s.is_self then [] else [(s.url, LinkMeta.sub s)]) ++
         s.selftext_html.map (fun u => (u, LinkMeta.sub s))
   | none => []) ++
  (match coms with
   | some cs => cs.flatMap (fun c => c.body_html.map (fun u => (u, LinkMeta.com c)))
   | none => [])

/-- Walk the initial source's pairs as _urls does, adding each present
submission's id to the visited set and collecting the discovered
URLs. -/
def urlsPairs : List String → List (Option CSub × Option (List CCom)) →
    List String × List (String × LinkMeta)
  | v, [] => (v, [])
  | v, (sub, coms) :: rest =>
      let v1 := match sub with | some s => visitInsert v s.id | none => v
      let r := urlsPairs v1 rest
      (r.1, pairUrls sub coms ++ r.2)

/-- Classification of one discovered URL by the items loop (reddit.py
lines 39-48): fragment URLs are dropped, root-relative URLs are
resolved against the site origin, URLs matching the single-submission
pattern become pending post ids, everything else is emitted. -/
inductive UrlClass where
  | drop
  | pending (sid : String)
  | emit (u : String)
deriving DecidableEq

/-- Model of the per-URL branch of RedditExtractor.items. `subre` is
the oracle for the external single-submission URL pattern, returning
the captured post id on a match (the whole-listing subreddit and user
patterns are blacklisted from this recursion by the source and so are
not part of the oracle); text.unescape on emitted URLs is an external
identity-shaped transform, left out. -/
def classifyUrl (subre : String → Option String) (url : String) : UrlClass :=
  if url.front = '#' then UrlClass.drop
  else
    let u := if url.front = '/' then "https://www.reddit.com" ++ url else url
    match subre u with
    | some sid => UrlClass.pending sid
    | none => UrlClass.emit u

/-- Split one round's discovered URLs into the emitted terminal links
and the pending same-site post ids, in encounter order. -/
def roundOutputs (subre : String → Option String) :
    List (String × LinkMeta) → List (String × LinkMeta) × List String
  | [] => ([], [])
  | (u, m) :: rest =>
      let r := roundOutputs subre rest
      match classifyUrl subre u with
      | UrlClass.drop => r
      | UrlClass.pending sid => (r.1, sid :: r.2)
      | UrlClass.emit u2 => ((u2, m) :: r.1, r.2)

/-- Result of one expansion round over the pending ids: the visited
set after the round, the URLs discovered, and the ids actually
fetched. -/
structure ExpandRes where
  visited : List String
  urls : List (String × LinkMeta)
  fetched : List String
deriving DecidableEq

/-- One expansion round: the generator `(api.submission(sid) for sid
in extra if sid not in visited)` consumed by _urls — the visited check
happens as each id is pulled, interleaved with the visited insertions
of the pairs already processed. `api` is the oracle for
RedditAPI.submission. -/
def urlsExpand (api : String → CSub × Option (List CCom)) :
    List String → List String → ExpandRes
  | v, [] => ⟨v, [], []⟩
  | v, sid :: rest =>
      if sid ∈ v then urlsExpand api v rest
      else
        let p := api sid
        let v1 := visitInsert v p.1.id
        let r := urlsExpand api v1 rest
        ⟨r.visited, pairUrls (some p.1) p.2 ++ r.urls, sid :: r.fetched⟩

/-- Result of a whole crawl: emitted terminal links, the ids fetched
by expansion rounds, the number of expansion rounds run, and the final
visited set. -/
structure CrawlRes where
  emits : List (String × LinkMeta)
  fetched : List String
  rounds : Nat
  visited : List String
deriving DecidableEq

/-- The while-loop of RedditExtractor.items after the first round
(reddit.py lines 36-56), with `fuel = max_depth - depth` so that the
loop's exit test `not extra or depth == max_depth` becomes `extra
empty or fuel zero`; each iteration expands the pending ids, splits
the discovered URLs, and recurses with one unit of fuel spent. -/
def crawlLoop (api : String → CSub × Option (List CCom))
    (subre : String → Option String) : Nat → List String → List String → CrawlRes
  | 0, v, _ => ⟨[], [], 0, v⟩
  | fuel + 1, v, extra =>
      if extra.isEmpty then ⟨[], [], 0, v⟩
      else
        let e := urlsExpand api v extra
        let ro := roundOutputs subre e.urls
        let r := crawlLoop api subre fuel e.visited ro.2
        ⟨ro.1 ++ r.emits, e.fetched ++ r.fetched, r.rounds + 1, r.visited⟩

/-- Model of RedditExtractor.items: process the caller-supplied source
at depth 0, then run the expansion loop up to the configured max
depth. -/
def crawl (api : String → CSub × Option (List CCom))
    (subre : String → Option String) (maxDepth : Nat)
    (source : List (Option CSub × Option (List CCom))) : CrawlRes :=
  let p := urlsPairs [] source
  let ro := roundOutputs subre p.2
  let r := crawlLoop api subre maxDepth p.1 ro.2
  ⟨ro.1 ++ r.emits, r.fetched, r.rounds, r.visited⟩

/-- The self post whose body links to one other submission, used in
the depth-1 crawl scenario. -/
def c3subA : CSub := ⟨"a", true, "https://a", ["https://www.reddit.com/r/x/comments/b"]⟩

/-- The expanded submission, whose own body links to yet another
submission. -/
def c3subB : CSub := ⟨"b", true, "https://b", ["https://www.reddit.com/r/x/comments/c"]⟩

/-- The submission linked from inside the expanded post, which a
depth-1 crawl must never fetch. -/
def c3subC : CSub := ⟨"c", true, "https://c", []⟩

/-- Submission-fetch oracle for the depth-1 crawl scenario. -/
def c3api : String → CSub × Option (List CCom) :=
  fun sid =>
    if sid = "b" then (c3subB, none)
    else if sid = "c" then (c3subC, none)
    else (c3subA, none)

/-- Single-submission URL pattern oracle for the depth-1 crawl
scenario. -/
def c3subre : String → Option String :=
  fun u =>
    if u = "https://www.reddit.com/r/x/comments/b" then some "b"
    else if u = "https://www.reddit.com/r/x/comments/c" then some "c"
    else none

/-- Claim C3: the crawl loop runs at most max-depth expansion rounds
(so the emitted sequence is finite whenever each round's source is,
the result being a finite list by construction); with max depth 1, a
post whose body links to one other submission expands exactly that
one submission in exactly one round, and the link found inside the
expanded post is never fetched. -/
theorem claim_C3_depth_bound :
    (∀ (api : String → CSub × Option (List CCom)) (subre : String → Option String)
      (fuel : Nat) (v extra : List String),
        (crawlLoop api subre fuel v extra).rounds ≤ fuel) ∧
    (∀ (api : String → CSub × Option (List CCom)) (subre : String → Option String)
      (d : Nat) (source : List (Option CSub × Option (List CCom))),
        (crawl api subre d source).rounds ≤ d) ∧
    (crawl c3api c3subre 1 [(some c3subA, none)]).fetched = ["b"] ∧
    (crawl c3api c3subre 1 [(some c3subA, none)]).rounds = 1 := by
  have hloop : ∀ (api : String → CSub × Option (List CCom))
      (subre : String → Option String) (fuel : Nat) (v extra : List String),
      (crawlLoop api subre fuel v extra).rounds ≤ fuel := by
    intro api subre fuel
    induction fuel with
    | zero => intro v extra; simp [crawlLoop]
    | succ fuel ih =>
        intro v extra
        rw [crawlLoop]
        by_cases h : extra.isEmpty
        · simp [h]
        · simp only [h, if_false, Bool.false_eq_true]
          have := ih (urlsExpand api v extra).visited
            (roundOutputs subre (urlsExpand api v extra).urls).2
          omega
  refine ⟨hloop, ?_, by decide, by decide⟩
  intro api subre d source
  exact hloop api subre d _ _

theorem visitInsert_mem (v : List String) (i x : String) :
    x ∈ visitInsert v i ↔ x = i ∨ x ∈ v := by
  unfold visitInsert
  by_cases h : i ∈ v
  · simp only [h, if_true]
    constructor
    · exact fun hx => Or.inr hx
    · rintro (rfl | hx) <;> assumption
  · simp [h]

theorem visitInsert_subset (v : List String) (i : String) : v ⊆ visitInsert v i := by
  intro x hx
  rw [visitInsert_mem]
  exact Or.inr hx

theorem visitInsert_nodup (v : List String) (i : String) (h : v.Nodup) :
    (visitInsert v i).Nodup := by
  unfold visitInsert
  by_cases hi : i ∈ v
  · simpa [hi]
  · simp [hi, h]

/-- Invariants of one expansion round, given that the submission
oracle returns the submission that was asked for: the visited set only
grows, no id is fetched twice, no fetched id was already visited, and
each fetched id is visited afterwards. -/
theorem urlsExpand_inv (api : String → CSub × Option (List CCom))
    (hapi : ∀ sid, (api sid).1.id = sid) :
    ∀ (extra v : List String),
      v ⊆ (urlsExpand api v extra).visited ∧
      (urlsExpand api v extra).fetched.Nodup ∧
      (∀ x ∈ (urlsExpand api v extra).fetched, x ∉ v ∧ x ∈ (urlsExpand api v extra).visited) ∧
      (v.Nodup → (urlsExpand api v extra).visited.Nodup) := by
  intro extra
  induction extra with
  | nil => intro v; simp [urlsExpand]
  | cons sid rest ih =>
      intro v
      rw [urlsExpand]
      by_cases h : sid ∈ v
      · simpa [h] using ih v
      · simp only [h, if_false]
        rw [hapi sid]
        obtain ⟨ihsub, ihnd, ihmem, ihvn⟩ := ih (visitInsert v sid)
        refine ⟨?_, ?_, ?_, ?_⟩
        · intro x hx
          exact ihsub (visitInsert_subset v sid hx)
        · simp only [List.nodup_cons]
          refine ⟨fun hmem => ?_, ihnd⟩
          exact (ihmem sid hmem).1 ((visitInsert_mem v sid sid).mpr (Or.inl rfl))
        · intro x hx
          rcases List.mem_cons.mp hx with rfl | hx2
          · exact ⟨h, ihsub ((visitInsert_mem v x x).mpr (Or.inl rfl))⟩
          · obtain ⟨hnv, hvis⟩ := ihmem x hx2
            rw [visitInsert_mem] at hnv
            exact ⟨fun hxv => hnv (Or.inr hxv), hvis⟩
        · intro hvn
          exact ihvn (visitInsert_nodup v sid hvn)

/-- Invariants of the whole expansion loop, carried across rounds. -/
theorem crawlLoop_inv (api : String → CSub × Option (List CCom))
    (hapi : ∀ sid, (api sid).1.id = sid) (subre : String → Option String) :
    ∀ (fuel : Nat) (v extra : List String),
      v ⊆ (crawlLoop api subre fuel v extra).visited ∧
      (crawlLoop api subre fuel v extra).fetched.Nodup ∧
      (∀ x ∈ (crawlLoop api subre fuel v extra).fetched,
        x ∉ v ∧ x ∈ (crawlLoop api subre fuel v extra).visited) ∧
      (v.Nodup → (crawlLoop api subre fuel v extra).visited.Nodup) := by
  intro fuel
  induction fuel with
  | zero => intro v extra; simp [crawlLoop]
  | succ fuel ih =>
      intro v extra
      rw [crawlLoop]
      by_cases h : extra.isEmpty
      · simp [h]
      · simp only [h, if_false, Bool.false_eq_true]
        obtain ⟨esub, end_, emem, evn⟩ := urlsExpand_inv api hapi extra v
        obtain ⟨lsub, lnd, lmem, lvn⟩ :=
          ih (urlsExpand api v extra).visited
            (roundOutputs subre (urlsExpand api v extra).urls).2
        refine ⟨?_, ?_, ?_, ?_⟩
        · intro x hx
          exact lsub (esub hx)
        · rw [List.nodup_append]
          refine ⟨end_, lnd, fun x hx hx2 => ?_⟩
          exact (lmem x hx2).1 (emem x hx).2
        · intro x hx
          rcases List.mem_append.mp hx with hx1 | hx2
          · exact ⟨(emem x hx1).1, lsub (emem x hx1).2⟩
          · exact ⟨fun hxv => (lmem x hx2).1 (esub hxv), (lmem x hx2).2⟩
        · intro hvn
          exact lvn (evn hvn)

/-- Claim C4: within one crawl, the visited set only grows and stays
duplicate-free (each post id is added at most once), no id is ever
fetched twice — even when captured as a pending candidate from two
different comments or posts in the same round — and an id already
visited is never fetched, provided the submission oracle answers a
fetch for an id with a submission carrying that id. -/
theorem claim_C4_visited_set (api : String → CSub × Option (List CCom))
    (hapi : ∀ sid, (api sid).1.id = sid) (subre : String → Option String)
    (fuel : Nat) (v extra : List String) :
    v ⊆ (crawlLoop api subre fuel v extra).visited ∧
    (crawlLoop api subre fuel v extra).fetched.Nodup ∧
    (∀ x ∈ (crawlLoop api subre fuel v extra).fetched, x ∉ v) ∧
    (v.Nodup → (crawlLoop api subre fuel v extra).visited.Nodup) := by
  obtain ⟨hsub, hnd, hmem, hvn⟩ := crawlLoop_inv api hapi subre fuel v extra
  exact ⟨hsub, hnd, fun x hx => (hmem x hx).1, hvn⟩

/-- Witness for claim C4: a round whose pending list carries the same
id twice (as if two different comments linked to it) and an id already
visited; the duplicate is fetched once and the visited id not at
all. -/
theorem claim_C4_witness :
    ["q"] ⊆ (crawlLoop (fun sid => (⟨sid, true, "u", []⟩, none)) (fun _ => none)
        1 ["q"] ["p", "p", "q"]).visited ∧
    (crawlLoop (fun sid => (⟨sid, true, "u", []⟩, none)) (fun _ => none)
        1 ["q"] ["p", "p", "q"]).fetched.Nodup ∧
    (∀ x ∈ (crawlLoop (fun sid => (⟨sid, true, "u", []⟩, none)) (fun _ => none)
        1 ["q"] ["p", "p", "q"]).fetched, x ∉ ["q"]) ∧
    (["q"].Nodup → (crawlLoop (fun sid => (⟨sid, true, "u", []⟩, none)) (fun _ => none)
        1 ["q"] ["p", "p", "q"]).visited.Nodup) :=
  claim_C4_visited_set (fun sid => (⟨sid, true, "u", []⟩, none))
    (fun _ => rfl) (fun _ => none) 1 ["q"] ["p", "p", "q"]

/- ### Authentication and token cache (RedditAPI._authenticate_impl) -/

/-- A token-cache state: entries of (refresh-token key, cached value,
expiry time), most recent first. The key is the refresh credential,
with `none` for the public-grant case as its own key. -/
def AuthCache : Type := List (Option String × String × Nat)

/-- Modelled from the spec: the lookup half of the `cache(maxage=3600,
keyarg=1)` decorator applied to _authenticate_impl — the decorator's
code lives in gallery_dl's cache module, which is not among the
repository files provided; per the spec it caches the returned value
keyed by the refresh credential with a time-to-live of 3600 time
units, so a stored value answers lookups strictly before its expiry
time. -/
def cacheLookup (st : AuthCache) (key : Option String) (now : Nat) : Option String :=
  match st.find? (fun e => decide (e.1 = key)) with
  | some e => if now < e.2.2 then some e.2.1 else none
  | none => none

/-- Modelled from the spec: the store half of the cache decorator — a
freshly computed value is recorded under its key with expiry
`now + 3600`. -/
def cacheStore (st : AuthCache) (key : Option String) (value : String) (now : Nat) :
    AuthCache :=
  (key, value, now + 3600) :: st

/-- Result of one authenticate() call: the bearer value or the
authentication failure, the cache state afterwards, and how many
token-exchange requests the call performed. -/
structure AuthRes where
  result : Except String String
  state : AuthCache
  exchanges : Nat

/-- Model of RedditAPI._authenticate_impl under the cache decorator
(reddit.py lines 245-273): on a cache hit the cached value is returned
with no exchange; on a miss or expiry one token-exchange request is
made (`exchange` is the oracle for the POST to the access_token
endpoint, keyed by the refresh credential, answering the issued token
or the non-200 error body), a failure raises AuthenticationError and
caches nothing, and a success caches and returns the string "Bearer "
prepended to the issued token. -/
def authenticateImpl (exchange : Option String → Except String String)
    (st : AuthCache) (key : Option String) (now : Nat) : AuthRes :=
  match cacheLookup st key now with
  | some v => ⟨Except.ok v, st, 0⟩
  | none =>
      match exchange key with
      | Except.ok tok =>
          ⟨Except.ok ("Bearer " ++ tok), cacheStore st key ("Bearer " ++ tok) now, 1⟩
      | Except.error e => ⟨Except.error e, st, 1⟩

/-- Claim C5: starting from an empty cache, a first authenticate()
call at time t0 performs exactly one token exchange and returns
"Bearer " prepended to the issued token; a second call with the same
refresh credential (the no-credential case being its own key) at any
t1 inside the 3600-unit TTL window performs zero exchanges and
returns the cached value; a third call at any t2 at or past expiry
performs exactly one more exchange. -/
theorem claim_C5_token_cache (exchange : Option String → Except String String)
    (key : Option String) (tok : String) (t0 t1 t2 : Nat)
    (hex : exchange key = Except.ok tok)
    (_h01 : t0 ≤ t1) (h1 : t1 < t0 + 3600) (h2 : t0 + 3600 ≤ t2) :
    (authenticateImpl exchange [] key t0).exchanges = 1 ∧
    (authenticateImpl exchange [] key t0).result = Except.ok ("Bearer " ++ tok) ∧
    (authenticateImpl exchange (authenticateImpl exchange [] key t0).state key t1).exchanges
      = 0 ∧
    (authenticateImpl exchange (authenticateImpl exchange [] key t0).state key t1).result
      = Except.ok ("Bearer " ++ tok) ∧
    (authenticateImpl exchange (authenticateImpl exchange [] key t0).state key t2).exchanges
      = 1 := by
  have hmiss : cacheLookup [] key t0 = none := rfl
  have hstate : (authenticateImpl exchange [] key t0).state =
      [(key, "Bearer " ++ tok, t0 + 3600)] := by
    simp [authenticateImpl, hmiss, hex, cacheStore]
  have hhit : cacheLookup [(key, "Bearer " ++ tok, t0 + 3600)] key t1 =
      some ("Bearer " ++ tok) := by
    simp [cacheLookup, List.find?, h1]
  have hexp : cacheLookup [(key, "Bearer " ++ tok, t0 + 3600)] key t2 = none := by
    simp [cacheLookup, List.find?]
    omega
  refine ⟨?_, ?_, ?_, ?_, ?_⟩
  · simp [authenticateImpl, hmiss, hex]
  · simp [authenticateImpl, hmiss, hex]
  · rw [hstate]; simp [authenticateImpl, hhit]
  · rw [hstate]; simp [authenticateImpl, hhit]
  · rw [hstate]; simp [authenticateImpl, hexp, hex]

/-- Witness for claim C5 with the public-grant key, a first call at
time 0, a hit at time 3599 and a refresh at time 3600. -/
theorem claim_C5_witness :
    (authenticateImpl (fun _ => Except.ok "tok") [] none 0).exchanges = 1 ∧
    (authenticateImpl (fun _ => Except.ok "tok") [] none 0).result
      = Except.ok ("Bearer " ++ "tok") ∧
    (authenticateImpl (fun _ => Except.ok "tok")
      (authenticateImpl (fun _ => Except.ok "tok") [] none 0).state none 3599).exchanges
      = 0 ∧
    (authenticateImpl (fun _ => Except.ok "tok")
      (authenticateImpl (fun _ => Except.ok "tok") [] none 0).state none 3599).result
      = Except.ok ("Bearer " ++ "tok") ∧
    (authenticateImpl (fun _ => Except.ok "tok")
      (authenticateImpl (fun _ => Except.ok "tok") [] none 0).state none 3600).exchanges
      = 1 :=
  claim_C5_token_cache (fun _ => Except.ok "tok") none "tok" 0 3599 3600
    rfl (by omega) (by omega) (by omega)

/- ### API call: rate limiting and error mapping (RedditAPI._call) -/

/-- A response body as _call inspects it: the optional embedded
"error" code, the "message" field read when the code is neither 403
nor 404, and the payload returned unchanged when no error code is
embedded. -/
structure RBody where
  error : Option Int
  message : String
  payload : String
deriving DecidableEq

/-- The failures _call can raise: the typed 403 and 404 mappings, the
generic failure carrying the server message, and a missing-header
lookup failure (a Python KeyError). -/
inductive CallError where
  | authorization
  | notFound
  | generic (msg : String)
  | keyError (header : String)
deriving DecidableEq

/-- Model of the rate-limit block of _call (reddit.py lines 280-284):
when the x-ratelimit-remaining header is present (a falsy empty header
being modelled as absence) and its numeric value is below 2, the
caller is put to sleep for the value of the x-ratelimit-reset header —
which is looked up unconditionally in that branch, so its absence
there is a lookup failure. Returns the seconds slept. -/
def checkRatelimit (remaining : Option ℚ) (reset : Option Nat) : Except CallError Nat :=
  match remaining with
  | some r =>
      if r < 2 then
        match reset with
        | some w => Except.ok w
        | none => Except.error (CallError.keyError "x-ratelimit-reset")
      else Except.ok 0
  | none => Except.ok 0

/-- Model of the error mapping of _call (reddit.py lines 285-292):
embedded code 403 raises AuthorizationError, 404 raises NotFoundError,
any other embedded code raises a generic failure carrying the server
message, and a body with no embedded error is returned unchanged. -/
def mapError (b : RBody) : Except CallError RBody :=
  match b.error with
  | some e =>
      if e = 403 then Except.error CallError.authorization
      else if e = 404 then Except.error CallError.notFound
      else Except.error (CallError.generic b.message)
  | none => Except.ok b

/-- Model of RedditAPI._call for one response: apply the rate-limit
backpressure, then the error mapping; on success return the seconds
slept paired with the unchanged body. -/
def rcall (remaining : Option ℚ) (reset : Option Nat) (b : RBody) :
    Except CallError (Nat × RBody) :=
  match checkRatelimit remaining reset with
  | Except.error e => Except.error e
  | Except.ok w =>
      match mapError b with
      | Except.error e => Except.error e
      | Except.ok b2 => Except.ok (w, b2)

/-- Claim C6, counterexample: with remaining quota 1 and the
reset-seconds header absent, the call does not complete normally — it
fails looking up x-ratelimit-reset — although the claim says absence
of either header means no throttling and normal completion. -/
theorem claim_C6_counterexample :
    rcall (some 1) none ⟨none, "", "ok"⟩ =
      Except.error (CallError.keyError "x-ratelimit-reset") := by
  rfl

/-- Claim C6 (amended): when the remaining-quota header is present
with value below 2 and the reset header is present, the caller is
blocked for the server-specified reset duration and the call still
returns its body successfully (backpressure, not an error); when the
remaining-quota header is absent, no throttling is applied and the
call completes normally. (When remaining is below 2 but the reset
header is absent, the call instead fails on the header lookup.) -/
theorem claim_C6_ratelimit (r : ℚ) (w : Nat) (reset : Option Nat) (b : RBody)
    (hr : r < 2) (hb : b.error = none) :
    rcall (some r) (some w) b = Except.ok (w, b) ∧
    rcall none reset b = Except.ok (0, b) := by
  constructor
  · simp [rcall, checkRatelimit, hr, mapError, hb]
  · simp [rcall, checkRatelimit, mapError, hb]

/-- Witness for claim C6's amended theorem: remaining quota 1 and
reset 5 delays the call by 5 and it still succeeds; no remaining
header means no delay. -/
theorem claim_C6_witness :
    rcall (some 1) (some 5) ⟨none, "", "ok"⟩ = Except.ok (5, ⟨none, "", "ok"⟩) ∧
    rcall none (some 5) ⟨none, "", "ok"⟩ = Except.ok (0, ⟨none, "", "ok"⟩) :=
  claim_C6_ratelimit 1 5 (some 5) ⟨none, "", "ok"⟩ (by norm_num) rfl

/-- Claim C7: whenever the rate-limit step passes, a body with
embedded error code 403 raises AuthorizationError, code 404 raises
NotFoundError, any other embedded code raises the generic failure
carrying the server message, and a body with no embedded error field
is returned unchanged. -/
theorem claim_C7_error_mapping (remaining : Option ℚ) (reset : Option Nat)
    (b : RBody) (w : Nat) (hok : checkRatelimit remaining reset = Except.ok w) :
    (b.error = some 403 → rcall remaining reset b = Except.error CallError.authorization) ∧
    (b.error = some 404 → rcall remaining reset b = Except.error CallError.notFound) ∧
    (∀ e : Int, b.error = some e → e ≠ 403 → e ≠ 404 →
      rcall remaining reset b = Except.error (CallError.generic b.message)) ∧
    (b.error = none → rcall remaining reset b = Except.ok (w, b)) := by
  refine ⟨?_, ?_, ?_, ?_⟩
  · intro h; simp [rcall, hok, mapError, h]
  · intro h; simp [rcall, hok, mapError, h]
  · intro e h h3 h4; simp [rcall, hok, mapError, h, h3, h4]
  · intro h; simp [rcall, hok, mapError, h]

/-- Witness for claim C7 at each of the four body shapes, with no
rate-limit headers present. -/
theorem claim_C7_witness :
    (RBody.error ⟨some 403, "m", "p"⟩ = some 403 →
      rcall none none ⟨some 403, "m", "p"⟩ = Except.error CallError.authorization) ∧
    (RBody.error ⟨some 403, "m", "p"⟩ = some 404 →
      rcall none none ⟨some 403, "m", "p"⟩ = Except.error CallError.notFound) ∧
    (∀ e : Int, RBody.error ⟨some 403, "m", "p"⟩ = some e → e ≠ 403 → e ≠ 404 →
      rcall none none ⟨some 403, "m", "p"⟩ =
        Except.error (CallError.generic (RBody.message ⟨some 403, "m", "p"⟩))) ∧
    (RBody.error ⟨some 403, "m", "p"⟩ = none →
      rcall none none ⟨some 403, "m", "p"⟩ = Except.ok (0, ⟨some 403, "m", "p"⟩)) :=
  claim_C7_error_mapping none none ⟨some 403, "m", "p"⟩ 0 rfl

/- ### Pagination and id filtering (RedditAPI._pagination, RedditAPI._parse_id) -/

/-- The fixed base-36 alphabet passed to util.bdecode by
RedditAPI._decode (reddit.py line 347). -/
def b36alphabet : List Char := "0123456789abcdefghijklmnopqrstuvwxyz".toList

/-- Modelled from the spec: util.bdecode from gallery_dl's util module
(not among the repository files provided) — "identifiers compared via
a base-36-like decode over a fixed alphabet": the positional value of
the identifier over the 36-character alphabet, folding each character
to its alphabet index. -/
def bdecode (s : String) : Nat :=
  s.toList.foldl (fun n c => n * 36 + b36alphabet.indexOf c) 0

/-- Model of RedditAPI._parse_id (reddit.py lines 341-343): a falsy
configured value (absent or empty) yields the given default; otherwise
the part after the last underscore is lowercased and decoded. -/
def parseId (cfg : Option String) (default : Nat) : Nat :=
  match cfg with
  | some sid =>
      if sid.isEmpty then default
      else bdecode ((sid.splitOn "_").getLastD "").toLower
  | none => default

/-- A listing child's post record as the pagination filter reads
it. -/
structure RPost where
  id : String
  created_utc : Int
  num_comments : Nat
deriving DecidableEq

/-- One child of a listing page: its kind tag and its data record. -/
structure RChild where
  kind : String
  data : RPost
deriving DecidableEq

/-- One page of a listing response: its children and its continuation
cursor, the empty string standing for a falsy cursor. -/
structure RPage where
  children : List RChild
  after : String
deriving DecidableEq

/-- An item yielded by the pagination generator: a full submission
fetch with its flattened comments, a bare post with no comments, or a
bare comment. -/
inductive PagItem where
  | subWithComments (p : RPost) (comments : List String)
  | postOnly (p : RPost)
  | commentOnly (p : RPost)
deriving DecidableEq

/-- The items one listing child contributes (reddit.py lines 302-319):
children outside the date range or the decoded-id range are dropped;
a kind t3 child with comments enabled and a nonzero comment count goes
through the full submission fetch, whose oracle `subF` answers `none`
for the swallowed AuthorizationError (the post is skipped); otherwise
a t3 child is yielded bare; a t1 child is yielded when comments are
enabled. -/
def childItems (subF : String → Option (RPost × List String)) (comments : Nat)
    (idMin idMax : Nat) (dmin dmax : Int) (ch : RChild) : List PagItem :=
  let post := ch.data
  if dmin ≤ post.created_utc ∧ post.created_utc ≤ dmax ∧
      idMin ≤ bdecode post.id ∧ bdecode post.id ≤ idMax then
    if ch.kind = "t3" then
      if post.num_comments ≠ 0 ∧ comments ≠ 0 then
        match subF post.id with
        | some (p, cs) => [PagItem.subWithComments p cs]
        | none => []
      else [PagItem.postOnly post]
    else if ch.kind = "t1" ∧ comments ≠ 0 then [PagItem.commentOnly post]
    else []
  else []

/-- The items of one whole page under the configured id bounds: the
id-min and id-max options default to 0 and 2147483647 (reddit.py
lines 295-296). -/
def pageItems (api : Option String → RPage)
    (subF : String → Option (RPost × List String)) (comments : Nat)
    (idMinCfg idMaxCfg : Option String) (dmin dmax : Int)
    (after : Option String) : List PagItem :=
  (api after).children.flatMap
    (childItems subF comments (parseId idMinCfg 0) (parseId idMaxCfg 2147483647)
      dmin dmax)

/-- Result of a pagination run: the yielded items and the cursor
parameter of every listing call made, in order. -/
structure PagRes where
  items : List PagItem
  calls : List (Option String)
deriving DecidableEq

/-- Model of RedditAPI._pagination (reddit.py lines 294-323): `api` is
the listing-call oracle keyed by the cursor parameter; each iteration
yields the page's qualifying items, stops when the page's cursor is
falsy, and otherwise continues with the page's cursor. The id and
date bounds are computed before the loop in the source; being pure
they are equal in every iteration. Fuel bounds the iterations, the
callers under study supplying enough. -/
def paginate (api : Option String → RPage)
    (subF : String → Option (RPost × List String)) (comments : Nat)
    (idMinCfg idMaxCfg : Option String) (dmin dmax : Int) :
    Nat → Option String → PagRes
  | 0, _ => ⟨[], []⟩
  | fuel + 1, after =>
      let items := pageItems api subF comments idMinCfg idMaxCfg dmin dmax after
      if (api after).after = "" then ⟨items, [after]⟩
      else
        let r := paginate api subF comments idMinCfg idMaxCfg dmin dmax fuel
          (some (api after).after)
        ⟨items ++ r.items, after :: r.calls⟩

/-- Claim C8: a page answering a falsy continuation cursor terminates
pagination right after its own qualifying items, with no further
listing call (the call log is exactly the one call, whatever fuel
remains); a page answering a non-empty cursor makes the next call
carry exactly that cursor. -/
theorem claim_C8_cursor_termination (api : Option String → RPage)
    (subF : String → Option (RPost × List String)) (comments : Nat)
    (idMinCfg idMaxCfg : Option String) (dmin dmax : Int) (fuel : Nat)
    (after : Option String) :
    ((api after).after = "" →
      paginate api subF comments idMinCfg idMaxCfg dmin dmax (fuel + 1) after =
        ⟨pageItems api subF comments idMinCfg idMaxCfg dmin dmax after, [after]⟩) ∧
    ((api after).after ≠ "" →
      (paginate api subF comments idMinCfg idMaxCfg dmin dmax (fuel + 1) after).calls =
        after ::
          (paginate api subF comments idMinCfg idMaxCfg dmin dmax fuel
            (some (api after).after)).calls) := by
  constructor
  · intro h
    rw [paginate]
    simp [h]
  · intro h
    rw [paginate]
    simp [h]

/-- Claim C9: with no id-min or id-max option configured, pagination
still applies the default identifier bounds 0 and 2147483647, so any
listing child inside the date range whose base-36-decoded identifier
exceeds 2147483647 contributes no item — it is silently dropped
although no filter was requested. -/
theorem claim_C9_default_id_bounds (api : Option String → RPage)
    (subF : String → Option (RPost × List String)) (comments : Nat)
    (dmin dmax : Int) (after : Option String) (ch : RChild)
    (_hd : dmin ≤ ch.data.created_utc ∧ ch.data.created_utc ≤ dmax)
    (hid : 2147483647 < bdecode ch.data.id) :
    parseId none 0 = 0 ∧
    parseId none 2147483647 = 2147483647 ∧
    childItems subF comments (parseId none 0) (parseId none 2147483647) dmin dmax ch
      = [] ∧
    pageItems api subF comments none none dmin dmax after =
      (api after).children.flatMap (childItems subF comments 0 2147483647 dmin dmax) := by
  have hc : ¬ (dmin ≤ ch.data.created_utc ∧ ch.data.created_utc ≤ dmax ∧
      parseId none 0 ≤ bdecode ch.data.id ∧ bdecode ch.data.id ≤ parseId none 2147483647) := by
    rintro ⟨-, -, -, h4⟩
    simp only [parseId] at h4
    omega
  exact ⟨rfl, rfl, by simp [childItems, hc], rfl⟩

/-- Witness for claim C9 at the in-date t3 child with id "zzzzzz",
whose base-36 value 2176782335 exceeds 2147483647. -/
theorem claim_C9_witness :
    parseId none 0 = 0 ∧
    parseId none 2147483647 = 2147483647 ∧
    childItems (fun _ => none) 0 (parseId none 0) (parseId none 2147483647) 0 253402210800
      ⟨"t3", ⟨"zzzzzz", 7, 3⟩⟩ = [] ∧
    pageItems (fun _ => ⟨[⟨"t3", ⟨"zzzzzz", 7, 3⟩⟩], ""⟩) (fun _ => none) 0 none none
      0 253402210800 none =
      (((fun (_ : Option String) => RPage.mk [⟨"t3", ⟨"zzzzzz", 7, 3⟩⟩] "") none).children).flatMap
        (childItems (fun _ => none) 0 0 2147483647 0 253402210800) :=
  claim_C9_default_id_bounds (fun _ => ⟨[⟨"t3", ⟨"zzzzzz", 7, 3⟩⟩], ""⟩) (fun _ => none)
    0 0 253402210800 none ⟨"t3", ⟨"zzzzzz", 7, 3⟩⟩ (by constructor <;> decide) (by decide)

/-- Witness for claim C8: a page with a falsy cursor makes exactly
the one call even with fuel left over, and a page with cursor "nxt"
makes the next call carry "nxt". -/
theorem claim_C8_witness :
    paginate (fun _ => ⟨[], ""⟩) (fun _ => none) 0 none none 0 0 3 none =
      ⟨pageItems (fun _ => ⟨[], ""⟩) (fun _ => none) 0 none none 0 0 none, [none]⟩ ∧
    (paginate (fun c => if c = none then ⟨[], "nxt"⟩ else ⟨[], ""⟩) (fun _ => none)
        0 none none 0 0 2 none).calls =
      none :: (paginate (fun c => if c = none then ⟨[], "nxt"⟩ else ⟨[], ""⟩)
        (fun _ => none) 0 none none 0 0 1 (some "nxt")).calls :=
  ⟨(claim_C8_cursor_termination (fun _ => ⟨[], ""⟩) (fun _ => none) 0 none none 0 0
      2 none).1 rfl,
   (claim_C8_cursor_termination (fun c => if c = none then ⟨[], "nxt"⟩ else ⟨[], ""⟩)
      (fun _ => none) 0 none none 0 0 1 none).2 (by decide)⟩
